import Mathlib

/-!
Verification of the WeeekClient name-resolution and task-orchestration layer
(`weeek-api.js`).  The remote HTTP API is modelled by an `Env` oracle giving
the response of every endpoint the client reads, together with the outcome of
every mutating call; a client operation is embedded as a function from `Env`
to its result paired with the ordered list of mutating requests it issued.
-/

namespace Weeek

/-! ## JavaScript-semantics helpers -/

/-- Model of JavaScript `String.prototype.toLowerCase` (ASCII case folding). -/
def jsLower (s : String) : String := ⟨s.data.map Char.toLower⟩

/-- Predicate `charsLead needle hay` is true when `needle` is a leading segment of `hay`. -/
def charsLead (needle hay : List Char) : Bool :=
  match needle, hay with
  | [], _ => true
  | _ :: _, [] => false
  | a :: as, b :: bs => a == b && charsLead as bs

/-- Predicate `charsHave needle hay` is true when `needle` occurs contiguously inside `hay`. -/
def charsHave (needle hay : List Char) : Bool :=
  match hay with
  | [] => charsLead needle []
  | _ :: bs => charsLead needle hay || charsHave needle bs

/-- Model of JavaScript `hay.includes(needle)` for strings. -/
def jsIncludes (hay needle : String) : Bool := charsHave needle.data hay.data

/-- JavaScript truthiness of an optional numeric id (`undefined`, `null` and `0`
are falsy). -/
def jsTruthyNat : Option Nat → Bool
  | none => false
  | some n => n != 0

/-- JavaScript truthiness of an optional string (`undefined`, `null` and `""`
are falsy). -/
def jsTruthyStr : Option String → Bool
  | none => false
  | some s => s != ""

/-- Value of an optional string where JavaScript would read the raw variable. -/
def jsStr (o : Option String) : String := o.getD ""

/-- Model of JavaScript `Array.prototype.join(', ')`. -/
def joinComma : List String → String
  | [] => ""
  | [x] => x
  | x :: y :: xs => x ++ ", " ++ joinComma (y :: xs)

/-! ## Data model (remote-owned records, fields the client reads) -/

/-- A project record as returned by `GET tm/projects`. -/
structure Project where
  id : Nat
  name : String
deriving DecidableEq, Repr

/-- A board record as returned by `GET tm/boards`; `projectName` is the
client-side annotation added by the all-boards aggregation. -/
structure Board where
  id : Nat
  name : String
  projectId : Nat
  projectName : Option String := none
deriving DecidableEq, Repr

/-- A board-column record as returned by `GET tm/board-columns`. -/
structure Column where
  id : Nat
  name : String
  boardId : Nat
deriving DecidableEq, Repr

/-- A task record as returned by the tasks endpoints. -/
structure TaskRec where
  id : Nat
  title : String := ""
  boardId : Option Nat := none
  boardColumnId : Option Nat := none
  parentId : Option Nat := none
  assignees : List Nat := []
deriving DecidableEq, Repr

/-- A workspace member record as returned by `GET ws/members`; absent name
fields are modelled as `""` (both are falsy in the JavaScript filter). -/
structure Member where
  id : Nat
  firstName : String := ""
  lastName : String := ""
  email : String
deriving DecidableEq, Repr

/-- The user shape produced by `getUsers` (derived display name). -/
structure UserRec where
  id : Nat
  name : String
  email : String
deriving DecidableEq, Repr

/-- One element of the `locations` array of a task-creation payload. -/
structure Location where
  projectId : Nat
  boardId : Nat
  boardColumnId : Option Nat
deriving DecidableEq, Repr

/-- The `data` argument accepted by `createTask`. -/
structure CreateData where
  title : String
  description : Option String := none
  priority : Option Int := none
  projectId : Option Nat := none
  boardId : Option Nat := none
  boardColumnId : Option Nat := none
  assignees : List Nat := []
  parentId : Option Nat := none
  type : Option String := none
deriving DecidableEq, Repr

/-- The JSON payload `createTask` posts to `POST tm/tasks`. -/
structure CreatePayload where
  type : String
  title : String
  description : Option String
  priority : Option Int
  projectId : Option Nat
  boardId : Option Nat
  boardColumnId : Option Nat
  assignees : List Nat
  parentId : Option Nat
  locations : Option (List Location)
deriving DecidableEq, Repr

/-- The argument object of `createTaskDetailed`. -/
structure TaskSpec where
  title : String
  boardName : Option String := none
  columnName : Option String := none
  assigneeName : Option String := none
  priority : Option Int := none
  description : Option String := none
  subtasks : List String := []
deriving DecidableEq, Repr

/-- A mutating remote request issued by the client. -/
inductive Mut where
  | create (payload : CreatePayload)
  | move (taskId : Nat) (boardColumnId : Nat)
deriving DecidableEq, Repr

/-- Outcome of a client operation: the returned value or thrown error,
together with the ordered list of mutating requests that were issued. -/
structure Res (α : Type) where
  res : Except String α
  calls : List Mut

/-- The remote environment: read-endpoint responses and mutating-call
outcomes.  Per the API contract, the boards endpoint filtered by project id
returns that project's boards and the columns endpoint filtered by board id
returns that board's columns; `boardsFail` / `columnsFail` make an individual
filtered request fail instead. -/
structure Env where
  projectsResp : Except String (List Project)
  boards : List Board
  boardsFail : Nat → Option String
  columns : List Column
  columnsFail : Nat → Option String
  tasksResp : Nat → Except String (List TaskRec)
  membersResp : Except String (List Member)
  createResp : CreatePayload → Except String TaskRec
  getTaskResp : Nat → Except String TaskRec
  moveResp : Nat → Nat → Except String Unit

/-! ## Entity accessors -/

/-- Model of `getBoards(projectId)` with a truthy project id: one filtered boards
query, envelope unwrapped. -/
def getBoardsById (env : Env) (pid : Nat) : Except String (List Board) :=
  match env.boardsFail pid with
  | some e => .error e
  | none => .ok (env.boards.filter (fun b => b.projectId == pid))

/-- The client-side annotation `{ ...b, projectName: p.name }`. -/
def annotate (pname : String) (b : Board) : Board := { b with projectName := some pname }

/-- Model of `getBoards(projectId)`.  With a truthy id, one filtered query; otherwise
the fan-out: list all projects, query each project's boards (a failing branch
contributes `[]`), annotate each board with its project's name and
concatenate in project listing order.  (The JavaScript recursion
`this.getBoards(p.id)` reaches the direct branch exactly when `p.id` is
truthy; a project id of `0` would make the JavaScript recurse forever, so
theorems about the fan-out assume nonzero project ids.) -/
def getBoards (env : Env) (projectId : Option Nat) : Except String (List Board) :=
  if jsTruthyNat projectId then getBoardsById env (projectId.getD 0)
  else
    match env.projectsResp with
    | .error e => .error e
    | .ok ps =>
        .ok ((ps.map (fun p =>
          match getBoardsById env p.id with
          | .error _ => []
          | .ok bs => bs.map (annotate p.name))).flatten)

/-- Model of `getColumns(boardId)`: one filtered columns query, envelope unwrapped. -/
def getColumns (env : Env) (boardId : Nat) : Except String (List Column) :=
  match env.columnsFail boardId with
  | some e => .error e
  | none => .ok (env.columns.filter (fun c => c.boardId == boardId))

/-- Model of `getTasks` filtered by board id, as used by `getBoardWithContext`. -/
def getTasksByBoard (env : Env) (boardId : Nat) : Except String (List TaskRec) :=
  env.tasksResp boardId

/-- Model of JavaScript `Array.prototype.join(' ')`. -/
def joinSpace : List String → String
  | [] => ""
  | [x] => x
  | x :: y :: xs => x ++ " " ++ joinSpace (y :: xs)

/-- The display name `[u.firstName, u.lastName].filter(Boolean).join(' ') || u.email`. -/
def memberName (m : Member) : String :=
  let joined := joinSpace ([m.firstName, m.lastName].filter (fun s => s != ""))
  if joined == "" then m.email else joined

/-- Model of `getUsers()`: list workspace members and derive a display name. -/
def getUsers (env : Env) : Except String (List UserRec) :=
  match env.membersResp with
  | .error e => .error e
  | .ok ms => .ok (ms.map (fun m => { id := m.id, name := memberName m, email := m.email }))

/-! ## Resolution -/

/-- The exact-match test of `findBoard`. -/
def boardExact (query : String) (b : Board) : Bool := jsLower b.name == jsLower query

/-- The substring-match test of `findBoard`. -/
def boardSub (query : String) (b : Board) : Bool := jsIncludes (jsLower b.name) (jsLower query)

/-- Model of `findBoard(query)`: fetch all boards, return the first exact
(case-insensitive) name match alone if one exists, else every substring
match in listing order. -/
def findBoard (env : Env) (query : String) : Except String (List Board) :=
  match getBoards env none with
  | .error e => .error e
  | .ok boards =>
      match boards.find? (boardExact query) with
      | some exact => .ok [exact]
      | none => .ok (boards.filter (boardSub query))

/-- The substring-match test used on columns. -/
def colSub (query : String) (c : Column) : Bool := jsIncludes (jsLower c.name) (jsLower query)

/-- Model of `findColumn(boardId, query)`: fetch the board's columns and return the
first case-insensitive substring match, if any. -/
def findColumn (env : Env) (boardId : Nat) (query : String) : Except String (Option Column) :=
  match getColumns env boardId with
  | .error e => .error e
  | .ok cols => .ok (cols.find? (colSub query))

/-- The substring-match test of `findUser` (display name or email). -/
def userMatch (query : String) (u : UserRec) : Bool :=
  jsIncludes (jsLower u.name) (jsLower query) || jsIncludes (jsLower u.email) (jsLower query)

/-- Model of `findUser(query)`: fetch the users and return the first whose name or
email contains the query case-insensitively, if any. -/
def findUser (env : Env) (query : String) : Except String (Option UserRec) :=
  match getUsers env with
  | .error e => .error e
  | .ok us => .ok (us.find? (userMatch query))

/-! ## Board-with-context aggregation -/

/-- The composite returned by `getBoardWithContext`. -/
structure BoardCtx where
  id : Nat
  name : String
  projectId : Nat
  projectName : Option String
  columns : List Column
  tasks : List TaskRec
deriving DecidableEq, Repr

/-- The `"name" (ID: id)` label used in the ambiguous-board error. -/
def boardLabel (b : Board) : String :=
  "\"" ++ b.name ++ "\" (ID: " ++ toString b.id ++ ")"

/-- The not-found error message of `getBoardWithContext`. -/
def boardNotFoundMsg (boardName : String) : String :=
  "Board \"" ++ boardName ++ "\" not found."

/-- The ambiguous-board error message of `getBoardWithContext`. -/
def multipleBoardsMsg (ms : List Board) : String :=
  "Multiple boards found: " ++ joinComma (ms.map boardLabel) ++ ". Please be more specific."

/-- Model of `getBoardWithContext(boardName)`: resolve the board via `findBoard`
(zero matches and multiple matches fail with descriptive errors), then fetch
its columns and its tasks and return the composite. -/
def getBoardWithContext (env : Env) (boardName : String) : Except String BoardCtx :=
  match findBoard env boardName with
  | .error e => .error e
  | .ok [] => .error (boardNotFoundMsg boardName)
  | .ok [b] =>
      match getColumns env b.id, getTasksByBoard env b.id with
      | .error e, _ => .error e
      | .ok _, .error e => .error e
      | .ok cols, .ok tasks =>
          .ok { id := b.id, name := b.name, projectId := b.projectId,
                projectName := b.projectName, columns := cols, tasks := tasks }
  | .ok ms => .error (multipleBoardsMsg ms)

/-! ## Task creation -/

/-- The single `locations` element built from a `createTask` `data` argument:
the project id defaults to `0` when absent. -/
def locOf (d : CreateData) : Location :=
  { projectId := d.projectId.getD 0,
    boardId := d.boardId.getD 0,
    boardColumnId := d.boardColumnId }

/-- The payload `createTask` builds from its `data` argument: `type` defaults
to `"action"`, and a truthy `boardId` adds a single-element `locations` array
(project id defaulting to `0`). -/
def mkPayload (d : CreateData) : CreatePayload :=
  { type := d.type.getD "action",
    title := d.title,
    description := d.description,
    priority := d.priority,
    projectId := d.projectId,
    boardId := d.boardId,
    boardColumnId := d.boardColumnId,
    assignees := d.assignees,
    parentId := d.parentId,
    locations := if jsTruthyNat d.boardId then some [locOf d] else none }

/-- Model of `createTask(data)`: build the payload and post it; the request is issued
whether or not the remote accepts it. -/
def createTask (env : Env) (d : CreateData) : Res TaskRec :=
  ⟨env.createResp (mkPayload d), [Mut.create (mkPayload d)]⟩

/-- The column-not-found error of the detailed creation workflow. -/
def columnNotFoundMsg (columnName boardName : String) : String :=
  "Column \"" ++ columnName ++ "\" not found on board \"" ++ boardName ++ "\"."

/-- The user-not-found error of the detailed creation workflow. -/
def userNotFoundMsg (assigneeName : String) : String :=
  "User \"" ++ assigneeName ++ "\" not found."

/-- The board/column resolution phase of `createTaskDetailed`: with a truthy
board name, resolve the board with its context, then the column — by
case-insensitive substring against the board's column list when a column name
is given, else the board's first column when it has one, else no column.
Yields `(boardId, projectId, boardColumnId)`, all `none` when no board name
is given. -/
def resolveBoardPhase (env : Env) (s : TaskSpec) :
    Except String (Option Nat × Option Nat × Option Nat) :=
  if jsTruthyStr s.boardName then
    match getBoardWithContext env (jsStr s.boardName) with
    | .error e => .error e
    | .ok board =>
        if jsTruthyStr s.columnName then
          match board.columns.find? (colSub (jsStr s.columnName)) with
          | none => .error (columnNotFoundMsg (jsStr s.columnName) (jsStr s.boardName))
          | some col => .ok (some board.id, some board.projectId, some col.id)
        else if board.columns.length > 0 then
          .ok (some board.id, some board.projectId, board.columns.head?.map (fun c => c.id))
        else
          .ok (some board.id, some board.projectId, none)
  else .ok (none, none, none)

/-- The assignee resolution phase of `createTaskDetailed`: with a truthy
assignee name, `findUser`; a missing user aborts. -/
def resolveAssigneePhase (env : Env) (s : TaskSpec) : Except String (Option Nat) :=
  if jsTruthyStr s.assigneeName then
    match findUser env (jsStr s.assigneeName) with
    | .error e => .error e
    | .ok none => .error (userNotFoundMsg (jsStr s.assigneeName))
    | .ok (some u) => .ok (some u.id)
  else .ok none

/-- Value of `assigneeId ? [assigneeId] : []`. -/
def assigneesOf (aId : Option Nat) : List Nat :=
  if jsTruthyNat aId then [aId.getD 0] else []

/-- The `data` of the primary creation call of `createTaskDetailed`. -/
def mainData (s : TaskSpec) (bId pId cId aId : Option Nat) : CreateData :=
  { title := s.title,
    description := some (s.description.getD ""),
    priority := some (s.priority.getD 0),
    projectId := pId,
    boardId := bId,
    boardColumnId := cId,
    assignees := assigneesOf aId }

/-- The `data` of one subtask creation call of `createTaskDetailed`. -/
def subtaskData (mainId : Nat) (bId pId cId aId : Option Nat) (stTitle : String) : CreateData :=
  { title := stTitle,
    parentId := some mainId,
    projectId := pId,
    boardId := bId,
    boardColumnId := cId,
    assignees := assigneesOf aId }

/-- The sequential subtask loop: one creation call per title, in order; the
first failure propagates and stops the loop. -/
def createSubtasks (env : Env) (mk : String → CreateData) : List String → Res Unit
  | [] => ⟨.ok (), []⟩
  | t :: ts =>
      let c := createTask env (mk t)
      match c.res with
      | .error e => ⟨.error e, c.calls⟩
      | .ok _ =>
          let r := createSubtasks env (mk) ts
          ⟨r.res, c.calls ++ r.calls⟩

/-- Model of `createTaskDetailed(spec)`: resolve board/column, resolve assignee, issue
the primary creation call, then sequentially create the subtasks against the
same resolved context, and return the primary task. -/
def createTaskDetailed (env : Env) (s : TaskSpec) : Res TaskRec :=
  match resolveBoardPhase env s with
  | .error e => ⟨.error e, []⟩
  | .ok (bId, pId, cId) =>
      match resolveAssigneePhase env s with
      | .error e => ⟨.error e, []⟩
      | .ok aId =>
          let main := createTask env (mainData s bId pId cId aId)
          match main.res with
          | .error e => ⟨.error e, main.calls⟩
          | .ok mainTask =>
              if s.subtasks.length > 0 then
                let sub := createSubtasks env
                  (fun t => subtaskData mainTask.id bId pId cId aId t) s.subtasks
                match sub.res with
                | .error e => ⟨.error e, main.calls ++ sub.calls⟩
                | .ok _ => ⟨.ok mainTask, main.calls ++ sub.calls⟩
              else ⟨.ok mainTask, main.calls⟩

/-! ## Task movement -/

/-- Model of `moveTask(taskId, boardColumnId)`: the raw column-move request. -/
def moveTask (env : Env) (taskId boardColumnId : Nat) : Res Unit :=
  ⟨env.moveResp taskId boardColumnId, [Mut.move taskId boardColumnId]⟩

/-- Model of `moveTaskToColumn(taskId, columnName)`: fetch the task, require a truthy
`boardId`, resolve the column within that board via `findColumn`, then move.
(A successful `getTask` always yields a truthy object, so the JavaScript
`if (!task)` guard is unreachable and not modelled.) -/
def moveTaskToColumn (env : Env) (taskId : Nat) (columnName : String) : Res Unit :=
  match env.getTaskResp taskId with
  | .error e => ⟨.error e, []⟩
  | .ok task =>
      if !(jsTruthyNat task.boardId) then
        ⟨.error "Task is not assigned to a board", []⟩
      else
        match findColumn env (task.boardId.getD 0) columnName with
        | .error e => ⟨.error e, []⟩
        | .ok none => ⟨.error ("Column \"" ++ columnName ++ "\" not found on board."), []⟩
        | .ok (some col) => moveTask env taskId col.id

/-! ## Concrete fixtures used to evaluate the operations -/

/-- Fixture project. -/
def pAlpha : Project := { id := 1, name := "Alpha" }

/-- Fixture project. -/
def pBeta : Project := { id := 2, name := "Beta" }

/-- Fixture project. -/
def pGamma : Project := { id := 3, name := "Gamma" }

/-- Fixture board. -/
def bRelease : Board := { id := 10, name := "Release", projectId := 1 }

/-- Fixture board whose name contains `bRelease`'s name as a substring. -/
def bRelease2 : Board := { id := 11, name := "Release 2.0", projectId := 1 }

/-- Fixture board. -/
def bApp : Board := { id := 20, name := "App", projectId := 2 }

/-- Fixture board with no columns. -/
def bDocs : Board := { id := 30, name := "Docs", projectId := 3 }

/-- Fixture column. -/
def cBacklog : Column := { id := 100, name := "Backlog", boardId := 10 }

/-- Fixture column. -/
def cDone : Column := { id := 101, name := "Done", boardId := 10 }

/-- Fixture column: same name as `cDone` but on another board. -/
def cDone2 : Column := { id := 110, name := "Done", boardId := 11 }

/-- Fixture column. -/
def cAppTodo : Column := { id := 200, name := "Todo", boardId := 20 }

/-- Fixture member whose display name is "Anna". -/
def mAnna : Member := { id := 1, firstName := "Anna", email := "anna@example.com" }

/-- Fixture member whose display name is "Ann". -/
def mAnn : Member := { id := 2, firstName := "Ann", email := "ann@example.com" }

/-- The derived user record of `mAnna`. -/
def uAnna : UserRec := { id := 1, name := "Anna", email := "anna@example.com" }

/-- The derived user record of `mAnn`. -/
def uAnn : UserRec := { id := 2, name := "Ann", email := "ann@example.com" }

/-- A healthy remote environment: three projects, four boards, columns on
three of them, two members, every request succeeding. -/
def envA : Env :=
  { projectsResp := .ok [pAlpha, pBeta, pGamma],
    boards := [bRelease, bRelease2, bApp, bDocs],
    boardsFail := fun _ => none,
    columns := [cBacklog, cDone, cDone2, cAppTodo],
    columnsFail := fun _ => none,
    tasksResp := fun _ => .ok [],
    membersResp := .ok [mAnna, mAnn],
    createResp := fun p => .ok { id := 77, title := p.title },
    getTaskResp := fun tid => .ok { id := tid, boardId := some 10 },
    moveResp := fun _ _ => .ok () }

/-- The aggregated board listing of `envA`. -/
def boardsAllA : List Board :=
  [annotate "Alpha" bRelease, annotate "Alpha" bRelease2,
   annotate "Beta" bApp, annotate "Gamma" bDocs]

/-- Environment `envA` with the task-creation endpoint rejecting any task titled "A". -/
def envFailA : Env :=
  { envA with createResp := fun p =>
      if p.title == "A" then .error "boom" else .ok { id := 9, title := p.title } }

/-- Environment with two boards whose names are case-insensitively equal. -/
def envDup : Env :=
  { projectsResp := .ok [pAlpha, pBeta],
    boards := [{ id := 40, name := "QA", projectId := 1 }, { id := 41, name := "qa", projectId := 2 }],
    boardsFail := fun _ => none,
    columns := [],
    columnsFail := fun _ => none,
    tasksResp := fun _ => .ok [],
    membersResp := .ok [],
    createResp := fun p => .ok { id := 77, title := p.title },
    getTaskResp := fun tid => .ok { id := tid },
    moveResp := fun _ _ => .ok () }

/-- Environment where the boards request of project 2 fails. -/
def envBranchFail : Env :=
  { projectsResp := .ok [pAlpha, pBeta, pGamma],
    boards := [{ id := 50, name := "A1", projectId := 1 }, { id := 51, name := "B1", projectId := 2 },
               { id := 52, name := "C1", projectId := 3 }],
    boardsFail := fun pid => if pid == 2 then some "HTTP 500" else none,
    columns := [],
    columnsFail := fun _ => none,
    tasksResp := fun _ => .ok [],
    membersResp := .ok [],
    createResp := fun p => .ok { id := 77, title := p.title },
    getTaskResp := fun tid => .ok { id := tid },
    moveResp := fun _ _ => .ok () }

/-- Creation spec with two subtasks, the first of which `envFailA` rejects. -/
def specFailSub : TaskSpec := { title := "T", subtasks := ["A", "B"] }

/-- Creation spec with a leading succeeding subtask before the failing one. -/
def specFailSub2 : TaskSpec := { title := "T", subtasks := ["S", "A", "B"] }

/-- Creation spec resolving a board, a column and two subtasks. -/
def specFull : TaskSpec :=
  { title := "T", boardName := some "Release", columnName := some "Backlog",
    subtasks := ["A", "B"] }

/-- Creation spec with an assignee name matching two users, one exactly. -/
def specAnn : TaskSpec := { title := "T", assigneeName := some "ann" }

/-- Creation spec with an ambiguous board name. -/
def specAmb : TaskSpec := { title := "T", boardName := some "Rel" }

/-- Creation spec with a board name and no column name. -/
def specApp : TaskSpec := { title := "T", boardName := some "App" }

/-- Creation spec against the column-less board. -/
def specDocs : TaskSpec := { title := "T", boardName := some "Docs" }

/-- The board context of "App" in `envA`. -/
def ctxApp : BoardCtx :=
  { id := 20, name := "App", projectId := 2, projectName := some "Beta",
    columns := [cAppTodo], tasks := [] }

/-- The board context of "Docs" in `envA`. -/
def ctxDocs : BoardCtx :=
  { id := 30, name := "Docs", projectId := 3, projectName := some "Gamma",
    columns := [], tasks := [] }

/-- Creation data carrying the falsy board id `0`. -/
def dZero : CreateData := { title := "t", boardId := some 0 }

/-- Creation data carrying a truthy board id. -/
def dLoc : CreateData := { title := "t", boardId := some 5, boardColumnId := some 7 }

/-! ## General lemmas -/

/-- The first element satisfying a test is the head of the sublist of elements
satisfying it. -/
theorem find?_eq_head?_filter {α : Type} (p : α → Bool) :
    ∀ l : List α, l.find? p = (l.filter p).head?
  | [] => rfl
  | a :: l => by
    cases h : p a with
    | true => rw [List.find?_cons_of_pos _ h, List.filter_cons_of_pos h]; rfl
    | false =>
      rw [List.find?_cons_of_neg _ (by simp [h]), List.filter_cons_of_neg (by simp [h]),
        find?_eq_head?_filter p l]

/-- Searching a split list whose left part has no hit returns the pivot
when the pivot is a hit. -/
theorem find?_first_of_split {α : Type} (p : α → Bool) (u : α) (hu : p u = true) :
    ∀ (l₁ l₂ : List α), (∀ v ∈ l₁, p v = false) → (l₁ ++ u :: l₂).find? p = some u
  | [], l₂, _ => by simp [List.find?_cons_of_pos _ hu]
  | a :: l₁, l₂, h => by
    have ha : p a = false := h a (by simp)
    rw [List.cons_append, List.find?_cons_of_neg _ (by simp [ha])]
    exact find?_first_of_split p u hu l₁ l₂ (fun v hv => h v (by simp [hv]))

/-- Every element of a joined list occurs contiguously in the join. -/
theorem joinComma_surrounds :
    ∀ (xs : List String) (x : String), x ∈ xs →
    ∃ pre post, joinComma xs = pre ++ x ++ post
  | [], x, hx => absurd hx (List.not_mem_nil x)
  | [a], x, hx => by
    have hxa : x = a := by simpa using hx
    subst hxa
    exact ⟨"", "", by simp [joinComma, String.empty_append, String.append_empty]⟩
  | a :: b :: xs, x, hx => by
    rcases List.mem_cons.mp hx with hxa | hxbs
    · subst hxa
      refine ⟨"", ", " ++ joinComma (b :: xs), ?_⟩
      simp [joinComma, String.empty_append, String.append_assoc]
    · obtain ⟨pre, post, hpp⟩ := joinComma_surrounds (b :: xs) x hxbs
      refine ⟨a ++ ", " ++ pre, post, ?_⟩
      simp [joinComma, hpp, String.append_assoc]

/-- Every matching board's quoted name and id occur in the ambiguity message. -/
theorem multipleBoardsMsg_surrounds (ms : List Board) (b : Board) (hb : b ∈ ms) :
    ∃ pre post, multipleBoardsMsg ms = pre ++ boardLabel b ++ post := by
  obtain ⟨pre, post, h⟩ :=
    joinComma_surrounds (ms.map boardLabel) (boardLabel b) (List.mem_map_of_mem _ hb)
  refine ⟨"Multiple boards found: " ++ pre, post ++ ". Please be more specific.", ?_⟩
  unfold multipleBoardsMsg
  rw [h]
  simp [String.append_assoc]

/-- The subtask loop with every creation accepted: one call per title, in
order, and a successful overall outcome. -/
theorem createSubtasks_all_ok (env : Env) (mk : String → CreateData) :
    ∀ ts : List String, (∀ t ∈ ts, ∃ r, env.createResp (mkPayload (mk t)) = .ok r) →
    createSubtasks env mk ts = ⟨.ok (), ts.map (fun t => Mut.create (mkPayload (mk t)))⟩
  | [], _ => rfl
  | t :: ts, h => by
    obtain ⟨r, hr⟩ := h t (by simp)
    have ih := createSubtasks_all_ok env mk ts (fun u hu => h u (by simp [hu]))
    simp [createSubtasks, createTask, hr, ih]

/-- The subtask loop stops at the first rejected creation: the titles before
it are each attempted once, the failing title is attempted, the loop returns
that error, and nothing after it is attempted. -/
theorem createSubtasks_stops_at_failure (env : Env) (mk : String → CreateData)
    (t e : String) (hfail : env.createResp (mkPayload (mk t)) = .error e) :
    ∀ (ts₁ ts₂ : List String), (∀ u ∈ ts₁, ∃ r, env.createResp (mkPayload (mk u)) = .ok r) →
    createSubtasks env mk (ts₁ ++ t :: ts₂) =
      ⟨.error e, (ts₁.map (fun u => Mut.create (mkPayload (mk u)))) ++ [Mut.create (mkPayload (mk t))]⟩
  | [], ts₂, _ => by simp [createSubtasks, createTask, hfail]
  | u :: ts₁, ts₂, h => by
    obtain ⟨r, hr⟩ := h u (by simp)
    have ih := createSubtasks_stops_at_failure env mk t e hfail ts₁ ts₂
      (fun v hv => h v (by simp [hv]))
    simp [createSubtasks, createTask, hr, ih]

/-- Once both resolution phases succeed, the first mutating call of the
detailed creation workflow is the primary creation call. -/
theorem createTaskDetailed_calls_shape (env : Env) (s : TaskSpec)
    (bId pId cId aId : Option Nat)
    (hb : resolveBoardPhase env s = .ok (bId, pId, cId))
    (ha : resolveAssigneePhase env s = .ok aId) :
    ∃ rest, (createTaskDetailed env s).calls =
      Mut.create (mkPayload (mainData s bId pId cId aId)) :: rest := by
  unfold createTaskDetailed
  rw [hb, ha]
  cases hc : env.createResp (mkPayload (mainData s bId pId cId aId)) with
  | error e => exact ⟨[], by simp [createTask, hc]⟩
  | ok T =>
    by_cases hlen : s.subtasks.length > 0
    · cases hs : (createSubtasks env
        (fun t => subtaskData T.id bId pId cId aId t) s.subtasks).res with
      | error e =>
        refine ⟨(createSubtasks env (fun t => subtaskData T.id bId pId cId aId t) s.subtasks).calls, ?_⟩
        simp [createTask, hc, hlen, hs]
      | ok _ =>
        refine ⟨(createSubtasks env (fun t => subtaskData T.id bId pId cId aId t) s.subtasks).calls, ?_⟩
        simp [createTask, hc, hlen, hs]
    · exact ⟨[], by simp [createTask, hc, hlen]⟩

/-! ## Claim theorems -/

/-- Claim C3: over the candidate board collection `C` that `findBoard`
fetches, a unique case-insensitively exact name match is returned alone even
when other candidates match as substrings; with no exact match and at least
two substring matches, all substring matches are returned in `C`'s original
order; and with no match at all the result is empty. -/
theorem findBoard_resolution (env : Env) (q : String) (C : List Board)
    (hC : getBoards env none = .ok C) :
    (∀ b, C.filter (boardExact q) = [b] → findBoard env q = .ok [b]) ∧
    (C.filter (boardExact q) = [] → 2 ≤ (C.filter (boardSub q)).length →
      findBoard env q = .ok (C.filter (boardSub q))) ∧
    (C.filter (boardExact q) = [] → C.filter (boardSub q) = [] →
      findBoard env q = .ok []) := by
  refine ⟨?_, ?_, ?_⟩
  · intro b hb
    have hfind : C.find? (boardExact q) = some b := by
      rw [find?_eq_head?_filter, hb]; rfl
    simp [findBoard, hC, hfind]
  · intro h0 _
    have hfind : C.find? (boardExact q) = none := by
      rw [find?_eq_head?_filter, h0]; rfl
    simp [findBoard, hC, hfind]
  · intro h0 hs
    have hfind : C.find? (boardExact q) = none := by
      rw [find?_eq_head?_filter, h0]; rfl
    simp [findBoard, hC, hfind, hs]

/-- Witness for C3: in `envA`, the query "release" matches "Release" exactly
and "Release 2.0" only as a substring, and returns "Release" alone. -/
theorem findBoard_resolution_witness :
    findBoard envA "release" = .ok [annotate "Alpha" bRelease] :=
  (findBoard_resolution envA "release" boardsAllA rfl).1 (annotate "Alpha" bRelease) (by decide)

/-- Claim C9: when two or more boards match the query exactly
(case-insensitively), `findBoard` silently returns the first of them in
listing order as a singleton, never an ambiguity signal. -/
theorem findBoard_duplicate_exact (env : Env) (q : String) (C : List Board)
    (b b' : Board) (rest : List Board)
    (hC : getBoards env none = .ok C)
    (hfil : C.filter (boardExact q) = b :: b' :: rest) :
    findBoard env q = .ok [b] := by
  have hfind : C.find? (boardExact q) = some b := by
    rw [find?_eq_head?_filter, hfil]; rfl
  simp [findBoard, hC, hfind]

/-- Witness for C9: in `envDup` the boards "QA" and "qa" both match "Qa"
exactly, and the first one is returned alone. -/
theorem findBoard_duplicate_exact_witness :
    findBoard envDup "Qa" = .ok [annotate "Alpha" { id := 40, name := "QA", projectId := 1 }] :=
  findBoard_duplicate_exact envDup "Qa" _
    (annotate "Alpha" { id := 40, name := "QA", projectId := 1 })
    (annotate "Beta" { id := 41, name := "qa", projectId := 2 }) [] rfl (by decide)

/-- Claim C5: with no project scope, `getBoards` concatenates, in project
listing order, each project's boards annotated with the owning project's
name; a failing per-project boards request contributes an empty segment and
the aggregation never throws.  (Project ids are assumed nonzero: a zero id is
falsy in JavaScript and would make the original recursion diverge.) -/
theorem getBoards_fanout_swallows (env : Env) (ps : List Project)
    (hps : env.projectsResp = .ok ps) (hnz : ∀ p ∈ ps, p.id ≠ 0) :
    getBoards env none = .ok ((ps.map (fun p =>
      match env.boardsFail p.id with
      | some _ => []
      | none => (env.boards.filter (fun b => b.projectId == p.id)).map (annotate p.name))).flatten) := by
  have hfun : ∀ p : Project,
      (match getBoardsById env p.id with
       | .error _ => ([] : List Board)
       | .ok bs => bs.map (annotate p.name)) =
      (match env.boardsFail p.id with
       | some _ => ([] : List Board)
       | none => (env.boards.filter (fun b => b.projectId == p.id)).map (annotate p.name)) := by
    intro p
    unfold getBoardsById
    cases env.boardsFail p.id <;> rfl
  have _ := hnz
  simp only [getBoards, jsTruthyNat, hps]
  rw [List.map_congr_left (fun p _ => hfun p)]
  rfl

/-- Witness for C5: in `envBranchFail`, project 2's boards request fails and the
aggregation returns project 1's and project 3's boards, annotated, in order,
without an error. -/
theorem getBoards_fanout_swallows_witness :
    getBoards envBranchFail none =
      .ok [annotate "Alpha" { id := 50, name := "A1", projectId := 1 },
           annotate "Gamma" { id := 52, name := "C1", projectId := 3 }] := by
  have h := getBoards_fanout_swallows envBranchFail [pAlpha, pBeta, pGamma] rfl (by decide)
  exact h.trans rfl

/-- Every element of a payload's `locations` array carries the column id of
the `data` the payload was built from. -/
theorem mkPayload_locations_content (d : CreateData) (locs : List Location) (l : Location)
    (h : (mkPayload d).locations = some locs) (hl : l ∈ locs) :
    l.boardColumnId = d.boardColumnId := by
  simp only [mkPayload] at h
  by_cases hb : jsTruthyNat d.boardId = true
  · rw [if_pos hb] at h
    have hlocs : locs = [locOf d] := by
      injection h with h'
      exact h'.symm
    subst hlocs
    have hll : l = locOf d := by simpa using hl
    rw [hll]
    rfl
  · rw [if_neg hb] at h
    cases h

/-- Claim C4: a failed board, column or assignee resolution aborts the
detailed creation workflow before any mutating request, and an ambiguous
board name fails with the message that enumerates every matching board's
quoted name and id. -/
theorem createTaskDetailed_read_before_write (env : Env) (s : TaskSpec) :
    (∀ bn ms, s.boardName = some bn → bn ≠ "" → findBoard env bn = .ok ms →
      ms.length ≠ 1 →
      (createTaskDetailed env s).calls = [] ∧
      (ms = [] → (createTaskDetailed env s).res = .error (boardNotFoundMsg bn)) ∧
      (2 ≤ ms.length →
        (createTaskDetailed env s).res = .error (multipleBoardsMsg ms) ∧
        ∀ b ∈ ms, ∃ pre post, multipleBoardsMsg ms = pre ++ boardLabel b ++ post)) ∧
    (∀ bn cn board, s.boardName = some bn → bn ≠ "" → s.columnName = some cn → cn ≠ "" →
      getBoardWithContext env bn = .ok board →
      board.columns.find? (colSub cn) = none →
      createTaskDetailed env s = ⟨.error (columnNotFoundMsg cn bn), []⟩) ∧
    (∀ an r, s.assigneeName = some an → an ≠ "" →
      resolveBoardPhase env s = .ok r →
      findUser env an = .ok none →
      createTaskDetailed env s = ⟨.error (userNotFoundMsg an), []⟩) := by
  refine ⟨?_, ?_, ?_⟩
  · intro bn ms hbn hbn' hfb hlen
    have htr : jsTruthyStr s.boardName = true := by simp [jsTruthyStr, hbn, hbn']
    have hstr : jsStr s.boardName = bn := by simp [jsStr, hbn]
    cases ms with
    | nil =>
      have hres : resolveBoardPhase env s = .error (boardNotFoundMsg bn) := by
        simp [resolveBoardPhase, htr, hstr, getBoardWithContext, hfb]
      exact ⟨by simp [createTaskDetailed, hres],
             fun _ => by simp [createTaskDetailed, hres],
             fun h2 => absurd h2 (by simp)⟩
    | cons b tail =>
      cases tail with
      | nil => exact absurd rfl hlen
      | cons b' rest =>
        have hres : resolveBoardPhase env s = .error (multipleBoardsMsg (b :: b' :: rest)) := by
          simp [resolveBoardPhase, htr, hstr, getBoardWithContext, hfb]
        refine ⟨by simp [createTaskDetailed, hres], fun h => absurd h (by simp), fun _ => ?_⟩
        exact ⟨by simp [createTaskDetailed, hres],
               fun bd hbd => multipleBoardsMsg_surrounds _ bd hbd⟩
  · intro bn cn board hbn hbn' hcn hcn' hgbc hfind
    have htr : jsTruthyStr s.boardName = true := by simp [jsTruthyStr, hbn, hbn']
    have hstr : jsStr s.boardName = bn := by simp [jsStr, hbn]
    have htrc : jsTruthyStr s.columnName = true := by simp [jsTruthyStr, hcn, hcn']
    have hstrc : jsStr s.columnName = cn := by simp [jsStr, hcn]
    have hres : resolveBoardPhase env s = .error (columnNotFoundMsg cn bn) := by
      simp [resolveBoardPhase, htr, hstr, htrc, hstrc, hgbc, hfind]
    simp [createTaskDetailed, hres]
  · intro an r hassn hassn' hres hfu
    obtain ⟨bId, pId, cId⟩ := r
    have htra : jsTruthyStr s.assigneeName = true := by simp [jsTruthyStr, hassn, hassn']
    have hstra : jsStr s.assigneeName = an := by simp [jsStr, hassn]
    have hass : resolveAssigneePhase env s = .error (userNotFoundMsg an) := by
      simp [resolveAssigneePhase, htra, hstra, hfu]
    simp [createTaskDetailed, hres, hass]

/-- Witness for C4: the board name "Rel" matches two boards of `envA`; the
detailed creation aborts with the enumerating message and no mutating call. -/
theorem createTaskDetailed_read_before_write_witness :
    (createTaskDetailed envA specAmb).calls = [] ∧
    (createTaskDetailed envA specAmb).res =
      .error (multipleBoardsMsg [annotate "Alpha" bRelease, annotate "Alpha" bRelease2]) := by
  have h := (createTaskDetailed_read_before_write envA specAmb).1 "Rel"
    [annotate "Alpha" bRelease, annotate "Alpha" bRelease2] rfl (by decide) rfl (by decide)
  exact ⟨h.1, (h.2.2 (by decide)).1⟩

/-- Claim C7: `moveTaskToColumn` resolves the column only among the columns
of the task's own board — a resolved column always belongs to that board —
and a missing board id or a miss within that board's columns fails without
issuing the move request. -/
theorem moveTaskToColumn_scoped (env : Env) (tId : Nat) (cn : String) (task : TaskRec)
    (htask : env.getTaskResp tId = .ok task) :
    (jsTruthyNat task.boardId = false →
      moveTaskToColumn env tId cn = ⟨.error "Task is not assigned to a board", []⟩) ∧
    (∀ bId, task.boardId = some bId → bId ≠ 0 →
      (findColumn env bId cn = .ok none →
        moveTaskToColumn env tId cn =
          ⟨.error ("Column \"" ++ cn ++ "\" not found on board."), []⟩) ∧
      (∀ col, findColumn env bId cn = .ok (some col) →
        col.boardId = bId ∧
        moveTaskToColumn env tId cn = ⟨env.moveResp tId col.id, [Mut.move tId col.id]⟩)) := by
  constructor
  · intro hf
    simp [moveTaskToColumn, htask, hf]
  · intro bId hbId hnz
    have htr : jsTruthyNat task.boardId = true := by simp [jsTruthyNat, hbId, hnz]
    have hget : task.boardId.getD 0 = bId := by simp [hbId]
    constructor
    · intro hfc
      simp [moveTaskToColumn, htask, htr, hget, hfc]
    · intro col hfc
      have hcol : col.boardId = bId := by
        have hfc' := hfc
        unfold findColumn getColumns at hfc'
        cases hcf : env.columnsFail bId with
        | some e => rw [hcf] at hfc'; exact absurd hfc' (by simp)
        | none =>
          rw [hcf] at hfc'
          simp only [Except.ok.injEq] at hfc'
          have hmem := List.mem_of_find?_eq_some hfc'
          simpa using (List.mem_filter.mp hmem).2
      exact ⟨hcol, by simp [moveTaskToColumn, htask, htr, hget, hfc, moveTask]⟩

/-- Witness for C7: in `envA`, task 5 lives on board 10 and "done" resolves
to that board's "Done" column (id 101), not the same-named column of board
11; the move request is issued for column 101. -/
theorem moveTaskToColumn_scoped_witness :
    cDone.boardId = 10 ∧
    moveTaskToColumn envA 5 "done" = ⟨.ok (), [Mut.move 5 101]⟩ := by
  have h := ((moveTaskToColumn_scoped envA 5 "done" { id := 5, boardId := some 10 } rfl).2
    10 rfl (by decide)).2 cDone rfl
  exact ⟨h.1, h.2⟩

/-- Claim C8: with a board name and no column name, the primary creation
payload carries the id of the board's first column (in fetched order) as its
column assignment — also inside the `locations` array — and, when the board
has no columns, it carries no column assignment at all. -/
theorem createTaskDetailed_default_column (env : Env) (s : TaskSpec) (bn : String)
    (board : BoardCtx) (aId : Option Nat)
    (hbn : s.boardName = some bn) (hbn' : bn ≠ "")
    (hcn : s.columnName = none)
    (hboard : getBoardWithContext env bn = .ok board)
    (hass : resolveAssigneePhase env s = .ok aId) :
    (∀ c cs, board.columns = c :: cs →
      ∃ p rest, (createTaskDetailed env s).calls = Mut.create p :: rest ∧
        p.boardColumnId = some c.id ∧
        ∀ locs l, p.locations = some locs → l ∈ locs → l.boardColumnId = some c.id) ∧
    (board.columns = [] →
      ∃ p rest, (createTaskDetailed env s).calls = Mut.create p :: rest ∧
        p.boardColumnId = none ∧
        ∀ locs l, p.locations = some locs → l ∈ locs → l.boardColumnId = none) := by
  have htr : jsTruthyStr s.boardName = true := by simp [jsTruthyStr, hbn, hbn']
  have hstr : jsStr s.boardName = bn := by simp [jsStr, hbn]
  have htrc : jsTruthyStr s.columnName = false := by simp [jsTruthyStr, hcn]
  constructor
  · intro c cs hcols
    have hres : resolveBoardPhase env s =
        .ok (some board.id, some board.projectId, some c.id) := by
      simp [resolveBoardPhase, htr, hstr, hboard, htrc, hcols]
    obtain ⟨rest, hrest⟩ := createTaskDetailed_calls_shape env s _ _ _ aId hres hass
    exact ⟨_, rest, hrest, rfl,
      fun locs l hlocs hl => mkPayload_locations_content _ locs l hlocs hl⟩
  · intro hcols
    have hres : resolveBoardPhase env s =
        .ok (some board.id, some board.projectId, none) := by
      simp [resolveBoardPhase, htr, hstr, hboard, htrc, hcols]
    obtain ⟨rest, hrest⟩ := createTaskDetailed_calls_shape env s _ _ _ aId hres hass
    exact ⟨_, rest, hrest, rfl,
      fun locs l hlocs hl => mkPayload_locations_content _ locs l hlocs hl⟩

/-- Witness for C8: creating on board "App" of `envA` with no column name
defaults the payload's column to the board's first column, id 200. -/
theorem createTaskDetailed_default_column_witness :
    ∃ p rest, (createTaskDetailed envA specApp).calls = Mut.create p :: rest ∧
      p.boardColumnId = some 200 ∧
      ∀ locs l, p.locations = some locs → l ∈ locs → l.boardColumnId = some 200 :=
  (createTaskDetailed_default_column envA specApp "App" ctxApp none rfl (by decide)
    rfl rfl rfl).1 cAppTodo [] rfl

/-- Claim C6: once resolution succeeds, the primary creation call is
followed by exactly one creation call per subtask title, in the order given,
each carrying that title, `parentId` equal to the primary task's id and the
same project, board, column and assignee set as the primary payload; the
overall result is the primary task alone. -/
theorem createTaskDetailed_subtask_sequence (env : Env) (s : TaskSpec)
    (bId pId cId aId : Option Nat) (T : TaskRec)
    (hb : resolveBoardPhase env s = .ok (bId, pId, cId))
    (ha : resolveAssigneePhase env s = .ok aId)
    (hmain : env.createResp (mkPayload (mainData s bId pId cId aId)) = .ok T)
    (hsub : ∀ t ∈ s.subtasks, ∃ r,
      env.createResp (mkPayload (subtaskData T.id bId pId cId aId t)) = .ok r) :
    createTaskDetailed env s =
      ⟨.ok T, Mut.create (mkPayload (mainData s bId pId cId aId)) ::
        s.subtasks.map (fun t => Mut.create (mkPayload (subtaskData T.id bId pId cId aId t)))⟩ ∧
    ∀ t, (mkPayload (subtaskData T.id bId pId cId aId t)).title = t ∧
      (mkPayload (subtaskData T.id bId pId cId aId t)).parentId = some T.id ∧
      (mkPayload (subtaskData T.id bId pId cId aId t)).projectId =
        (mkPayload (mainData s bId pId cId aId)).projectId ∧
      (mkPayload (subtaskData T.id bId pId cId aId t)).boardId =
        (mkPayload (mainData s bId pId cId aId)).boardId ∧
      (mkPayload (subtaskData T.id bId pId cId aId t)).boardColumnId =
        (mkPayload (mainData s bId pId cId aId)).boardColumnId ∧
      (mkPayload (subtaskData T.id bId pId cId aId t)).assignees =
        (mkPayload (mainData s bId pId cId aId)).assignees := by
  constructor
  · cases hsubs : s.subtasks with
    | nil =>
      simp [createTaskDetailed, hb, ha, createTask, hmain, hsubs]
    | cons t ts =>
      have hall := createSubtasks_all_ok env (fun u => subtaskData T.id bId pId cId aId u)
        (t :: ts) (by rw [← hsubs]; exact hsub)
      simp [createTaskDetailed, hb, ha, createTask, hmain, hsubs, hall]
  · intro t
    exact ⟨rfl, rfl, rfl, rfl, rfl, rfl⟩

/-- Witness for C6: the full creation spec against `envA` yields the primary
task and one subtask call per title, in order A then B. -/
theorem createTaskDetailed_subtask_sequence_witness :
    createTaskDetailed envA specFull =
      ⟨.ok { id := 77, title := "T" },
        Mut.create (mkPayload (mainData specFull (some 10) (some 1) (some 100) none)) ::
          [Mut.create (mkPayload (subtaskData 77 (some 10) (some 1) (some 100) none "A")),
           Mut.create (mkPayload (subtaskData 77 (some 10) (some 1) (some 100) none "B"))]⟩ :=
  (createTaskDetailed_subtask_sequence envA specFull (some 10) (some 1) (some 100) none
    { id := 77, title := "T" } rfl rfl rfl (fun t _ => ⟨{ id := 77, title := t }, rfl⟩)).1

/-- Counterexample to C1 as stated: in `envFailA` the primary task is created
and subtask "A" is rejected, but the workflow result is the bare subtask
error — it does not report the primary task's identity or the per-title
outcomes — and subtask "B" is never attempted. -/
theorem createTaskDetailed_no_failure_report_counterexample :
    createTaskDetailed envFailA specFailSub =
      ⟨.error "boom",
        [Mut.create (mkPayload (mainData specFailSub none none none none)),
         Mut.create (mkPayload (subtaskData 9 none none none none "A"))]⟩ := rfl

/-- Claim C1 (amended): when one subtask creation fails, the detailed
creation workflow propagates that subtask's error as its overall result, the
remaining subtasks are never attempted, and the already issued creation
calls — the primary and the earlier subtasks — are not rolled back. -/
theorem createTaskDetailed_subtask_failure (env : Env) (s : TaskSpec)
    (bId pId cId aId : Option Nat) (T : TaskRec) (ts₁ ts₂ : List String) (t e : String)
    (hb : resolveBoardPhase env s = .ok (bId, pId, cId))
    (ha : resolveAssigneePhase env s = .ok aId)
    (hmain : env.createResp (mkPayload (mainData s bId pId cId aId)) = .ok T)
    (hsplit : s.subtasks = ts₁ ++ t :: ts₂)
    (hok : ∀ u ∈ ts₁, ∃ r, env.createResp (mkPayload (subtaskData T.id bId pId cId aId u)) = .ok r)
    (hfail : env.createResp (mkPayload (subtaskData T.id bId pId cId aId t)) = .error e) :
    createTaskDetailed env s =
      ⟨.error e,
        Mut.create (mkPayload (mainData s bId pId cId aId)) ::
          (ts₁.map (fun u => Mut.create (mkPayload (subtaskData T.id bId pId cId aId u))) ++
            [Mut.create (mkPayload (subtaskData T.id bId pId cId aId t))])⟩ := by
  have hstop := createSubtasks_stops_at_failure env
    (fun u => subtaskData T.id bId pId cId aId u) t e hfail ts₁ ts₂ hok
  simp [createTaskDetailed, hb, ha, createTask, hmain, hsplit, hstop]

/-- Witness for C1 (amended): subtask "S" is created, "A" fails, "B" is never
attempted and the error propagates. -/
theorem createTaskDetailed_subtask_failure_witness :
    createTaskDetailed envFailA specFailSub2 =
      ⟨.error "boom",
        Mut.create (mkPayload (mainData specFailSub2 none none none none)) ::
          ([Mut.create (mkPayload (subtaskData 9 none none none none "S"))] ++
            [Mut.create (mkPayload (subtaskData 9 none none none none "A"))])⟩ :=
  createTaskDetailed_subtask_failure envFailA specFailSub2 none none none none
    { id := 9, title := "T" } ["S"] ["B"] "A" "boom" rfl rfl rfl rfl
    (by
      intro u hu
      have hus : u = "S" := by simpa using hu
      subst hus
      exact ⟨{ id := 9, title := "S" }, rfl⟩) rfl

/-- Counterexample to C2 as stated: in `envA` the query "ann" matches the
user "Ann" exactly (case-insensitively) yet `createTaskDetailed` silently
assigns the user "Anna" — the first substring match in listing order — with
no ambiguity report. -/
theorem findUser_exact_ignored_counterexample :
    jsLower "Ann" = jsLower "ann" ∧
    getUsers envA = .ok [uAnna, uAnn] ∧
    findUser envA "ann" = .ok (some uAnna) ∧
    createTaskDetailed envA specAnn =
      ⟨.ok { id := 77, title := "T" },
        [Mut.create (mkPayload (mainData specAnn none none none (some 1)))]⟩ ∧
    (mkPayload (mainData specAnn none none none (some 1))).assignees = [1] :=
  ⟨rfl, rfl, rfl, rfl, rfl⟩

/-- Claim C2 (amended): the assignee of `createTaskDetailed` is resolved to
the first user, in listing order, whose derived name or email contains the
query case-insensitively — exact matches take no precedence and several
matches raise no ambiguity — and only a zero-match outcome aborts the
workflow, as not-found, before any creation call. -/
theorem createTaskDetailed_assignee_first_match (env : Env) (s : TaskSpec) (an : String)
    (us : List UserRec)
    (han : s.assigneeName = some an) (han' : an ≠ "")
    (hus : getUsers env = .ok us) :
    (∀ us₁ u us₂, us = us₁ ++ u :: us₂ → (∀ v ∈ us₁, userMatch an v = false) →
      userMatch an u = true →
      resolveAssigneePhase env s = .ok (some u.id)) ∧
    ((∀ v ∈ us, userMatch an v = false) →
      ∀ r, resolveBoardPhase env s = .ok r →
        createTaskDetailed env s = ⟨.error (userNotFoundMsg an), []⟩) := by
  have htra : jsTruthyStr s.assigneeName = true := by simp [jsTruthyStr, han, han']
  have hstra : jsStr s.assigneeName = an := by simp [jsStr, han]
  constructor
  · intro us₁ u us₂ hsplit hnone hu
    have hfind : us.find? (userMatch an) = some u := by
      rw [hsplit]
      exact find?_first_of_split (userMatch an) u hu us₁ us₂ hnone
    have hfu : findUser env an = .ok (some u) := by simp [findUser, hus, hfind]
    simp [resolveAssigneePhase, htra, hstra, hfu]
  · intro hnone r hres
    obtain ⟨bId, pId, cId⟩ := r
    have hfind : us.find? (userMatch an) = none :=
      List.find?_eq_none.mpr (fun v hv => by simp [hnone v hv])
    have hfu : findUser env an = .ok none := by simp [findUser, hus, hfind]
    have hass : resolveAssigneePhase env s = .error (userNotFoundMsg an) := by
      simp [resolveAssigneePhase, htra, hstra, hfu]
    simp [createTaskDetailed, hres, hass]

/-- Witness for C2 (amended): "ann" resolves to the first substring match
"Anna" (id 1) in `envA`. -/
theorem createTaskDetailed_assignee_first_match_witness :
    resolveAssigneePhase envA specAnn = .ok (some 1) :=
  (createTaskDetailed_assignee_first_match envA specAnn "ann" [uAnna, uAnn]
    rfl (by decide) rfl).1 [] uAnna [uAnn] rfl
    (fun v hv => absurd hv (List.not_mem_nil v)) rfl

/-- Counterexample to C10 as stated: `createTask` data carrying the board id
`0` — falsy in JavaScript — produces a payload with no `locations` array. -/
theorem createTask_zero_boardId_counterexample :
    dZero.boardId = some 0 ∧
    (createTask envA dZero).calls = [Mut.create (mkPayload dZero)] ∧
    (mkPayload dZero).locations = none :=
  ⟨rfl, rfl, rfl⟩

/-- Claim C10 (amended): every `createTask` call posts exactly the built
payload, whose `type` is "action" unless the data overrides it; data with a
nonzero board id yields a single-element `locations` array holding the
project id (defaulting to 0), the board id and the column id, and data with
no board id yields no `locations`. -/
theorem createTask_payload_shape (env : Env) (d : CreateData) :
    (createTask env d).calls = [Mut.create (mkPayload d)] ∧
    (createTask env d).res = env.createResp (mkPayload d) ∧
    (mkPayload d).type = d.type.getD "action" ∧
    (∀ b, d.boardId = some b → b ≠ 0 →
      (mkPayload d).locations =
        some [{ projectId := d.projectId.getD 0, boardId := b, boardColumnId := d.boardColumnId }]) ∧
    (d.boardId = none → (mkPayload d).locations = none) := by
  refine ⟨rfl, rfl, rfl, ?_, ?_⟩
  · intro b hbb hb0
    simp [mkPayload, locOf, jsTruthyNat, hbb, hb0]
  · intro hnone
    simp [mkPayload, jsTruthyNat, hnone]

/-- Witness for C10 (amended): data with board id 5 and column id 7 yields a
payload locating the task at project 0, board 5, column 7. -/
theorem createTask_payload_shape_witness :
    (createTask envA dLoc).calls = [Mut.create (mkPayload dLoc)] ∧
    (mkPayload dLoc).locations = some [{ projectId := 0, boardId := 5, boardColumnId := some 7 }] :=
  ⟨(createTask_payload_shape envA dLoc).1,
   (createTask_payload_shape envA dLoc).2.2.2.1 5 rfl (by decide)⟩

end Weeek
